import Mathlib

/-!
Shallow embedding of the authorization and tenant-scoping core of the
tenantview-dashboard repository: the role-to-permission mapping and route
policy (src/lib/permissions.ts), the mock identity provider and tenant
catalog (src/lib/mock-api.ts), the identity session (src/contexts/AuthContext.tsx),
the tenant scope (src/contexts/TenantContext.tsx) and the access guard
(src/components/guards/ProtectedRoute.tsx).

Stateful React code is embedded as pure state-transition functions: each
effect or callback becomes a function from its inputs (current state, the
relevant localStorage entry, results of awaited calls) to the state and
storage it writes.  A JavaScript throw is embedded as an outcome record
carrying an error tag together with the unchanged state, since a throw
prevents the subsequent setState and localStorage writes.
-/

namespace TenantView

/-- The three roles of type UserRole in src/types/index.ts. -/
inductive UserRole where
  | super_admin
  | org_admin
  | member
deriving DecidableEq, Repr

/-- User status values from src/types/index.ts. -/
inductive UserStatus where
  | active
  | inactive
  | pending
deriving DecidableEq, Repr

/-- Tenant record from src/types/index.ts. -/
structure Tenant where
  id : String
  name : String
  slug : String
  logoUrl : Option String
  createdAt : String
deriving DecidableEq, Repr

/-- User record from src/types/index.ts. -/
structure User where
  id : String
  email : String
  name : String
  role : UserRole
  tenantId : String
  avatarUrl : Option String
  createdAt : String
  lastLoginAt : Option String
  status : UserStatus
deriving DecidableEq, Repr

/-- Permission record from src/types/index.ts. -/
structure Permission where
  canViewAllTenants : Bool
  canSwitchTenants : Bool
  canManageUsers : Bool
  canEditSettings : Bool
  canViewAnalytics : Bool
deriving DecidableEq, Repr

/-- AuthState from src/types/index.ts. -/
structure AuthState where
  user : Option User
  isAuthenticated : Bool
  isLoading : Bool
deriving DecidableEq, Repr

/-- TenantState from src/types/index.ts. -/
structure TenantState where
  currentTenant : Option Tenant
  availableTenants : List Tenant
  isLoading : Bool
deriving DecidableEq, Repr

/-- NavItem from src/types/index.ts. -/
structure NavItem where
  label : String
  path : String
  icon : String
  requiredRoles : List UserRole
deriving DecidableEq, Repr

/-- getPermissions from src/lib/permissions.ts: the fixed role-to-permission map. -/
def getPermissions : UserRole → Permission
  | UserRole.super_admin =>
    { canViewAllTenants := true
      canSwitchTenants := true
      canManageUsers := true
      canEditSettings := true
      canViewAnalytics := true }
  | UserRole.org_admin =>
    { canViewAllTenants := false
      canSwitchTenants := false
      canManageUsers := true
      canEditSettings := true
      canViewAnalytics := true }
  | UserRole.member =>
    { canViewAllTenants := false
      canSwitchTenants := false
      canManageUsers := false
      canEditSettings := false
      canViewAnalytics := true }

/-- navigationItems from src/lib/permissions.ts: the static navigation catalog. -/
def navigationItems : List NavItem :=
  [ { label := "Dashboard"
      path := "/dashboard"
      icon := "LayoutDashboard"
      requiredRoles := [UserRole.super_admin, UserRole.org_admin, UserRole.member] }
  , { label := "Users"
      path := "/dashboard/users"
      icon := "Users"
      requiredRoles := [UserRole.super_admin, UserRole.org_admin] }
  , { label := "Settings"
      path := "/dashboard/settings"
      icon := "Settings"
      requiredRoles := [UserRole.super_admin, UserRole.org_admin] } ]

/-- canAccessRoute from src/lib/permissions.ts: look the path up in the catalog
by exact match; unlisted routes are allowed by default. -/
def canAccessRoute (role : UserRole) (path : String) : Bool :=
  match navigationItems.find? (fun item => item.path == path) with
  | none => true
  | some navItem => navItem.requiredRoles.contains role

/-- First entry of mockTenants in src/lib/mock-api.ts. -/
def acmeTenant : Tenant :=
  { id := "tenant-1", name := "Acme Corporation", slug := "acme"
    logoUrl := none, createdAt := "2024-01-15T10:00:00Z" }

/-- Second entry of mockTenants in src/lib/mock-api.ts. -/
def techstartTenant : Tenant :=
  { id := "tenant-2", name := "TechStart Inc", slug := "techstart"
    logoUrl := none, createdAt := "2024-02-20T14:30:00Z" }

/-- Third entry of mockTenants in src/lib/mock-api.ts. -/
def globalTenant : Tenant :=
  { id := "tenant-3", name := "Global Dynamics", slug := "global-dynamics"
    logoUrl := none, createdAt := "2024-03-10T09:15:00Z" }

/-- mockTenants from src/lib/mock-api.ts: the tenant catalog tenantsApi.getAll
returns. -/
def mockTenants : List Tenant := [acmeTenant, techstartTenant, globalTenant]

/-- The fixed super_admin mock user (first entry of mockUsers in src/lib/mock-api.ts). -/
def mockUser1 : User :=
  { id := "user-1", email := "superadmin@platform.com", name := "Sarah Chen"
    role := UserRole.super_admin, tenantId := "tenant-1", avatarUrl := none
    createdAt := "2024-01-15T10:00:00Z", lastLoginAt := some "2024-12-22T08:30:00Z"
    status := UserStatus.active }

/-- The org_admin mock user of tenant-1 (second entry of mockUsers in
src/lib/mock-api.ts). -/
def mockUser2 : User :=
  { id := "user-2", email := "admin@acme.com", name := "Michael Torres"
    role := UserRole.org_admin, tenantId := "tenant-1", avatarUrl := none
    createdAt := "2024-01-20T11:00:00Z", lastLoginAt := some "2024-12-21T14:20:00Z"
    status := UserStatus.active }

/-- mockUsers from src/lib/mock-api.ts. -/
def mockUsers : List User :=
  [ mockUser1
  , mockUser2
  , { id := "user-3", email := "member@acme.com", name := "Emily Watson"
      role := UserRole.member, tenantId := "tenant-1", avatarUrl := none
      createdAt := "2024-02-05T09:00:00Z", lastLoginAt := some "2024-12-20T16:45:00Z"
      status := UserStatus.active }
  , { id := "user-4", email := "admin@techstart.com", name := "David Kim"
      role := UserRole.org_admin, tenantId := "tenant-2", avatarUrl := none
      createdAt := "2024-02-20T14:30:00Z", lastLoginAt := some "2024-12-19T10:00:00Z"
      status := UserStatus.active }
  , { id := "user-5", email := "member@techstart.com", name := "Lisa Park"
      role := UserRole.member, tenantId := "tenant-2", avatarUrl := none
      createdAt := "2024-02-25T08:00:00Z", lastLoginAt := none
      status := UserStatus.pending }
  , { id := "user-6", email := "admin@global.com", name := "James Wilson"
      role := UserRole.org_admin, tenantId := "tenant-3", avatarUrl := none
      createdAt := "2024-03-10T09:15:00Z", lastLoginAt := some "2024-12-18T12:30:00Z"
      status := UserStatus.active }
  , { id := "user-7", email := "member1@global.com", name := "Anna Schmidt"
      role := UserRole.member, tenantId := "tenant-3", avatarUrl := none
      createdAt := "2024-03-15T10:00:00Z", lastLoginAt := none
      status := UserStatus.inactive }
  , { id := "user-8", email := "member2@global.com", name := "Carlos Rivera"
      role := UserRole.member, tenantId := "tenant-3", avatarUrl := none
      createdAt := "2024-03-20T11:00:00Z", lastLoginAt := some "2024-12-17T09:00:00Z"
      status := UserStatus.active } ]

/-- The literal string value of a role, as interpolated by the template string
in authApi.login of src/lib/mock-api.ts. -/
def roleString : UserRole → String
  | UserRole.super_admin => "super_admin"
  | UserRole.org_admin => "org_admin"
  | UserRole.member => "member"

/-- The display name chosen by the ternary in the fabricated-user branch of
authApi.login in src/lib/mock-api.ts. -/
def fabricatedName : UserRole → String
  | UserRole.super_admin => "Super Admin"
  | UserRole.org_admin => "Org Admin"
  | UserRole.member => "Member"

/-- The mock user fabricated by authApi.login when no stored mock user matches.
nowMs stands for Date.now() and nowIso for new Date().toISOString(). -/
def fabricatedUser (role : UserRole) (tenantId : String) (nowMs : Nat) (nowIso : String) : User :=
  { id := "user-" ++ toString nowMs
    email := roleString role ++ "@" ++ tenantId ++ ".com"
    name := fabricatedName role
    role := role
    tenantId := tenantId
    avatarUrl := none
    createdAt := nowIso
    lastLoginAt := some nowIso
    status := UserStatus.active }

/-- authApi.login from src/lib/mock-api.ts: find a mock user matching role and
tenant; for super_admin always take the stored super_admin mock user; fabricate
a fresh user when nothing was found.  The awaited delay carries no data and is
dropped; the two clock reads are passed in as nowMs and nowIso. -/
def authApiLogin (role : UserRole) (tenantId : String) (nowMs : Nat) (nowIso : String) : User :=
  let found :=
    if role = UserRole.super_admin then
      mockUsers.find? (fun u => u.role == UserRole.super_admin)
    else
      mockUsers.find? (fun u => u.role == role && u.tenantId == tenantId)
  match found with
  | some u => u
  | none => fabricatedUser role tenantId nowMs nowIso

/-- The loadTenants effect of src/contexts/TenantContext.tsx for an authenticated
user, as a function of the fetched catalog and the stored tenant id: returns the
TenantState it sets and the dashboard_tenant entry after the effect (setItem runs
only when a tenant was resolved). -/
def loadTenants (user : User) (tenants : List Tenant) (storedTenantId : Option String) :
    TenantState × Option String :=
  let currentTenant : Option Tenant :=
    if user.role = UserRole.super_admin then
      match storedTenantId with
      | some sid =>
        match tenants.find? (fun t => t.id == sid) with
        | some t => some t
        | none => tenants.head?
      | none => tenants.head?
    else
      tenants.find? (fun t => t.id == user.tenantId)
  let newStored : Option String :=
    match currentTenant with
    | some t => some t.id
    | none => storedTenantId
  ( { currentTenant := currentTenant
      availableTenants := if user.role = UserRole.super_admin then tenants else []
      isLoading := false }
  , newStored )

/-- The two errors switchTenant of src/contexts/TenantContext.tsx can throw. -/
inductive SwitchError where
  | unauthorized
  | tenantNotFound
deriving DecidableEq, Repr

/-- Outcome of a switchTenant call: the error thrown (if any) together with the
TenantState and the dashboard_tenant storage entry after the call.  A throw
leaves both unchanged because it happens before setItem and setState. -/
structure SwitchOutcome where
  error : Option SwitchError
  state : TenantState
  stored : Option String
deriving DecidableEq, Repr

/-- switchTenant from src/contexts/TenantContext.tsx: throws unless the caller
is an authenticated super_admin, throws when the target id is not in
availableTenants, otherwise persists the id and updates currentTenant. -/
def switchTenant (user : Option User) (st : TenantState) (stored : Option String)
    (tenantId : String) : SwitchOutcome :=
  match user with
  | none => { error := some SwitchError.unauthorized, state := st, stored := stored }
  | some u =>
    if u.role = UserRole.super_admin then
      match st.availableTenants.find? (fun t => t.id == tenantId) with
      | some t =>
        { error := none
          state := { st with currentTenant := some t }
          stored := some tenantId }
      | none => { error := some SwitchError.tenantNotFound, state := st, stored := stored }
    else
      { error := some SwitchError.unauthorized, state := st, stored := stored }

/-- refreshTenants from src/contexts/TenantContext.tsx: replaces availableTenants
with the re-fetched catalog and touches nothing else. -/
def refreshTenants (st : TenantState) (fetched : List Tenant) : TenantState :=
  { st with availableTenants := fetched }

/-- A value held under the dashboard_auth key of localStorage.  login writes
JSON.stringify of a User, which JSON.parse maps back to the same record (all
User fields are JSON-safe strings or enumerated strings), embedded as the
stored constructor; any string JSON.parse rejects is embedded as malformed. -/
inductive StoredAuth where
  | stored (u : User)
  | malformed (raw : String)
deriving DecidableEq, Repr

/-- The AuthState every sign-out and failed restore ends in. -/
def anonymousAuth : AuthState :=
  { user := none, isAuthenticated := false, isLoading := false }

/-- The restore effect of AuthProvider in src/contexts/AuthContext.tsx, run on
mount from the initial state (user null, not authenticated, loading): reads the
dashboard_auth entry and returns the AuthState it settles in together with the
entry after the effect.  A parse failure is caught inside the effect (removeItem
plus loading false); it never propagates. -/
def restoreAuth (storedVal : Option StoredAuth) : AuthState × Option StoredAuth :=
  match storedVal with
  | none => (anonymousAuth, none)
  | some (StoredAuth.stored u) =>
    ({ user := some u, isAuthenticated := true, isLoading := false }, some (StoredAuth.stored u))
  | some (StoredAuth.malformed _) => (anonymousAuth, none)

/-- The success path of login in src/contexts/AuthContext.tsx once authApi.login
resolved to u: setItem of the serialized user, then the authenticated state. -/
def loginCommit (u : User) : Option StoredAuth × AuthState :=
  (some (StoredAuth.stored u), { user := some u, isAuthenticated := true, isLoading := false })

/-- The mock providers logout (authApi.logout in src/lib/mock-api.ts) only
awaits a delay; it never rejects. -/
def authApiLogoutFails : Bool := false

/-- Outcome of the logout callback of src/contexts/AuthContext.tsx. -/
structure LogoutOutcome where
  providerFailed : Bool
  store : Option StoredAuth
  state : AuthState
deriving DecidableEq, Repr

/-- logout from src/contexts/AuthContext.tsx: awaits authApi.logout with no
try/catch, then removes the dashboard_auth entry and sets the anonymous state.
providerFails is the outcome of the awaited provider call; when it rejects, the
await rethrows before removeItem and setState run, so store and state are
returned unchanged. -/
def logout (providerFails : Bool) (store : Option StoredAuth) (st : AuthState) : LogoutOutcome :=
  if providerFails then
    { providerFailed := true, store := store, state := st }
  else
    { providerFailed := false, store := none, state := anonymousAuth }

/-- The four ways ProtectedRoute in src/components/guards/ProtectedRoute.tsx can
render: the loading view, the Navigate to /login, the UnauthorizedFallback, or
the guarded children. -/
inductive GuardDecision where
  | await
  | redirectToLogin
  | unauthorized
  | allow
deriving DecidableEq, Repr

/-- ProtectedRoute from src/components/guards/ProtectedRoute.tsx as a pure
decision function of its input snapshot: auth and tenant loading flags, the
session, the optional requiredRoles prop and location.pathname. -/
def protectedRoute (authLoading tenantLoading : Bool) (isAuthenticated : Bool)
    (user : Option User) (requiredRoles : Option (List UserRole)) (pathname : String) :
    GuardDecision :=
  if authLoading || tenantLoading then
    GuardDecision.await
  else if !isAuthenticated then
    GuardDecision.redirectToLogin
  else
    match user with
    | none => GuardDecision.redirectToLogin
    | some u =>
      if (match requiredRoles with
          | some rs => !(rs.contains u.role)
          | none => false) then
        GuardDecision.unauthorized
      else if !(canAccessRoute u.role pathname) then
        GuardDecision.unauthorized
      else
        GuardDecision.allow

/-- The Access Guard decision procedure as worded by the spec: AWAIT while
loading, redirect to sign-in for an anonymous session (no user), deny when a
supplied requiredRolesForTarget excludes the role, deny when isRouteAccessible
is false, otherwise allow. -/
def guardSpec (authLoading tenantLoading : Bool) (user : Option User)
    (requiredRoles : Option (List UserRole)) (pathname : String) : GuardDecision :=
  if authLoading || tenantLoading then
    GuardDecision.await
  else
    match user with
    | none => GuardDecision.redirectToLogin
    | some u =>
      match requiredRoles with
      | some rs =>
        if rs.contains u.role then
          if canAccessRoute u.role pathname then GuardDecision.allow
          else GuardDecision.unauthorized
        else GuardDecision.unauthorized
      | none =>
        if canAccessRoute u.role pathname then GuardDecision.allow
        else GuardDecision.unauthorized

/-- Only super_admin has the canSwitchTenants permission. -/
theorem canSwitchTenants_iff (role : UserRole) :
    (getPermissions role).canSwitchTenants = true ↔ role = UserRole.super_admin := by
  cases role <;> simp [getPermissions]

/-- C5: for every role, the PermissionSet returned by getPermissions satisfies
the implication canSwitchTenants implies canViewAllTenants. -/
theorem permissions_switch_implies_viewAll (role : UserRole)
    (h : (getPermissions role).canSwitchTenants = true) :
    (getPermissions role).canViewAllTenants = true := by
  cases role <;> simp_all [getPermissions]

/-- Witness for C5 at role super_admin. -/
theorem permissions_switch_implies_viewAll_witness :
    (getPermissions UserRole.super_admin).canSwitchTenants = true ∧
    (getPermissions UserRole.super_admin).canViewAllTenants = true :=
  ⟨by decide, permissions_switch_implies_viewAll UserRole.super_admin (by decide)⟩

/-- C3: canAccessRoute looks the path up in navigationItems by exact match; a
found entry answers by role membership in its requiredRoles, an absent entry
answers true; on "/dashboard/users" it is true exactly for super_admin and
org_admin. -/
theorem canAccessRoute_spec (role : UserRole) (path : String) :
    (∀ navItem, navigationItems.find? (fun item => item.path == path) = some navItem →
      canAccessRoute role path = navItem.requiredRoles.contains role)
    ∧ (navigationItems.find? (fun item => item.path == path) = none →
      canAccessRoute role path = true)
    ∧ (canAccessRoute role "/dashboard/users" = true ↔
        (role = UserRole.super_admin ∨ role = UserRole.org_admin)) := by
  refine ⟨?_, ?_, ?_⟩
  · intro navItem h
    simp [canAccessRoute, h]
  · intro h
    simp [canAccessRoute, h]
  · cases role <;> decide

/-- Witness for C3: the Users route entry denies member and an unlisted route
is allowed for member. -/
theorem canAccessRoute_spec_witness :
    canAccessRoute UserRole.member "/dashboard/users" = false ∧
    canAccessRoute UserRole.member "/totally/unlisted" = true := by
  constructor
  · have h := (canAccessRoute_spec UserRole.member "/dashboard/users").1
      { label := "Users", path := "/dashboard/users", icon := "Users"
        requiredRoles := [UserRole.super_admin, UserRole.org_admin] } (by decide)
    rw [h]; decide
  · exact (canAccessRoute_spec UserRole.member "/totally/unlisted").2.1 (by decide)

/-- C8: for every malformed stored value, the restore effect settles in the
anonymous state and removes the dashboard_auth entry, so a subsequent read of
the key yields none; restoreAuth is total, so the parse failure never reaches
the caller. -/
theorem restoreAuth_malformed (raw : String) :
    restoreAuth (some (StoredAuth.malformed raw)) =
      ({ user := none, isAuthenticated := false, isLoading := false }, none) := rfl

/-- C9: serializing any User on sign-in and reinitializing the session from the
resulting store restores the same User field-for-field, authenticated, and in
the same state login had set. -/
theorem session_restore_roundtrip (u : User) :
    (restoreAuth (loginCommit u).1).1.user = some u ∧
    (restoreAuth (loginCommit u).1).1.isAuthenticated = true ∧
    (restoreAuth (loginCommit u).1).1 = (loginCommit u).2 :=
  ⟨rfl, rfl, rfl⟩

/-- C6 counterexample: with currentTenant tenant-1 and a refreshed catalog
that no longer holds tenant-1, refreshTenants keeps currentTenant at tenant-1
instead of falling back to the first refreshed entry. -/
theorem refreshTenants_keeps_stale_current :
    (refreshTenants
        { currentTenant := some acmeTenant
          availableTenants := [acmeTenant]
          isLoading := false }
        [techstartTenant]).currentTenant = some acmeTenant
    ∧ (∀ t ∈ [techstartTenant], t.id ≠ acmeTenant.id)
    ∧ [techstartTenant].head? = some techstartTenant
    ∧ some acmeTenant ≠ some techstartTenant := by decide

/-- C6 amended: refreshTenants replaces availableTenants with the re-fetched
catalog and always leaves currentTenant (and isLoading) unchanged, also when
currentTenant is absent from the refreshed catalog. -/
theorem refreshTenants_spec (st : TenantState) (fetched : List Tenant) :
    (refreshTenants st fetched).availableTenants = fetched ∧
    (refreshTenants st fetched).currentTenant = st.currentTenant ∧
    (refreshTenants st fetched).isLoading = st.isLoading :=
  ⟨rfl, rfl, rfl⟩

/-- C7 counterexample: when the awaited provider sign-out rejects, logout
rethrows before removeItem and setState, so the store entry survives and the
session is not anonymous. -/
theorem logout_provider_failure_blocks_clearing :
    (logout true (some (StoredAuth.stored mockUser1))
        { user := some mockUser1, isAuthenticated := true, isLoading := false }).store
      = some (StoredAuth.stored mockUser1)
    ∧ (logout true (some (StoredAuth.stored mockUser1))
        { user := some mockUser1, isAuthenticated := true, isLoading := false }).state
      ≠ anonymousAuth := by decide

/-- C7 amended: the repository provider authApi.logout never rejects (it only
awaits a delay), so every logout call ends with the dashboard_auth entry
removed and the session anonymous; but a hypothetical provider failure would
propagate before the local clearing, which is therefore not failure-proof. -/
theorem logout_with_mock_provider_clears (store : Option StoredAuth) (st : AuthState) :
    (logout authApiLogoutFails store st).store = none ∧
    (logout authApiLogoutFails store st).state = anonymousAuth :=
  ⟨rfl, rfl⟩

/-- C1: without the canSwitchTenants permission every switchTenant call fails
Unauthorized with state and storage untouched; a super_admin call fails
TenantNotFound when no member of availableTenants has the requested id (state
untouched), and otherwise sets currentTenant to the matching member and
persists its id. -/
theorem switchTenant_spec (u : User) (st : TenantState) (stored : Option String)
    (tenantId : String) :
    ((getPermissions u.role).canSwitchTenants = false →
      switchTenant (some u) st stored tenantId =
        { error := some SwitchError.unauthorized, state := st, stored := stored })
    ∧ (u.role = UserRole.super_admin →
        ((∀ t ∈ st.availableTenants, t.id ≠ tenantId) →
          switchTenant (some u) st stored tenantId =
            { error := some SwitchError.tenantNotFound, state := st, stored := stored })
        ∧ (∀ t, st.availableTenants.find? (fun x => x.id == tenantId) = some t →
            t ∈ st.availableTenants ∧ t.id = tenantId ∧
            switchTenant (some u) st stored tenantId =
              { error := none
                state := { st with currentTenant := some t }
                stored := some tenantId })) := by
  constructor
  · intro h
    have hr : ¬ u.role = UserRole.super_admin := by
      intro he
      rw [(canSwitchTenants_iff u.role).mpr he] at h
      simp at h
    simp [switchTenant, if_neg hr]
  · intro hr
    constructor
    · intro hall
      have hnone : st.availableTenants.find? (fun t => t.id == tenantId) = none := by
        rw [List.find?_eq_none]
        intro t ht
        simpa using hall t ht
      simp [switchTenant, if_pos hr, hnone]
    · intro t hf
      refine ⟨List.mem_of_find?_eq_some hf, ?_, ?_⟩
      · have := List.find?_some hf
        simpa using this
      · simp [switchTenant, if_pos hr, hf]

/-- Witness for C1: an org_admin is refused regardless of target, and the
super_admin both hits TenantNotFound on an absent id and switches to tenant-2
when it is present. -/
theorem switchTenant_spec_witness :
    switchTenant (some mockUser2)
        { currentTenant := some acmeTenant
          availableTenants := [acmeTenant, techstartTenant]
          isLoading := false } none "tenant-2"
      = { error := some SwitchError.unauthorized
          state := { currentTenant := some acmeTenant
                     availableTenants := [acmeTenant, techstartTenant]
                     isLoading := false }
          stored := none }
    ∧ switchTenant (some mockUser1)
        { currentTenant := some acmeTenant
          availableTenants := [acmeTenant, techstartTenant]
          isLoading := false } none "tenant-9"
      = { error := some SwitchError.tenantNotFound
          state := { currentTenant := some acmeTenant
                     availableTenants := [acmeTenant, techstartTenant]
                     isLoading := false }
          stored := none }
    ∧ switchTenant (some mockUser1)
        { currentTenant := some acmeTenant
          availableTenants := [acmeTenant, techstartTenant]
          isLoading := false } none "tenant-2"
      = { error := none
          state := { currentTenant := some techstartTenant
                     availableTenants := [acmeTenant, techstartTenant]
                     isLoading := false }
          stored := some "tenant-2" } := by
  refine ⟨?_, ?_, ?_⟩
  · exact (switchTenant_spec mockUser2
      { currentTenant := some acmeTenant
        availableTenants := [acmeTenant, techstartTenant]
        isLoading := false } none "tenant-2").1 (by decide)
  · exact ((switchTenant_spec mockUser1
      { currentTenant := some acmeTenant
        availableTenants := [acmeTenant, techstartTenant]
        isLoading := false } none "tenant-9").2 rfl).1 (by decide)
  · exact (((switchTenant_spec mockUser1
      { currentTenant := some acmeTenant
        availableTenants := [acmeTenant, techstartTenant]
        isLoading := false } none "tenant-2").2 rfl).2 techstartTenant (by decide)).2.2

/-- C4: on identity change, a role without canSwitchTenants gets an empty
availableTenants and the catalog entry matching its home tenantId (or none); a
role with canSwitchTenants gets the full catalog, currentTenant resolved from
the persisted id when still present, else the first entry, else none on an
empty catalog; whenever a tenant is resolved its id is written back to the
store, and otherwise the stored value is untouched. -/
theorem loadTenants_spec (u : User) (tenants : List Tenant) (stored : Option String) :
    ((getPermissions u.role).canSwitchTenants = false →
      (loadTenants u tenants stored).1.availableTenants = [] ∧
      (loadTenants u tenants stored).1.currentTenant
        = tenants.find? (fun t => t.id == u.tenantId) ∧
      ((∀ t ∈ tenants, t.id ≠ u.tenantId) →
        (loadTenants u tenants stored).1.currentTenant = none))
    ∧ ((getPermissions u.role).canSwitchTenants = true →
      (loadTenants u tenants stored).1.availableTenants = tenants ∧
      (∀ sid t, stored = some sid → tenants.find? (fun x => x.id == sid) = some t →
        (loadTenants u tenants stored).1.currentTenant = some t) ∧
      (∀ sid, stored = some sid → tenants.find? (fun x => x.id == sid) = none →
        (loadTenants u tenants stored).1.currentTenant = tenants.head?) ∧
      (stored = none →
        (loadTenants u tenants stored).1.currentTenant = tenants.head?) ∧
      (tenants = [] →
        (loadTenants u tenants stored).1.currentTenant = none))
    ∧ (∀ t, (loadTenants u tenants stored).1.currentTenant = some t →
      (loadTenants u tenants stored).2 = some t.id)
    ∧ ((loadTenants u tenants stored).1.currentTenant = none →
      (loadTenants u tenants stored).2 = stored) := by
  have key : (loadTenants u tenants stored).2 =
      (match (loadTenants u tenants stored).1.currentTenant with
       | some t => some t.id
       | none => stored) := rfl
  refine ⟨?_, ?_, ?_, ?_⟩
  · intro h
    have hr : ¬ u.role = UserRole.super_admin := by
      intro he
      rw [(canSwitchTenants_iff u.role).mpr he] at h
      simp at h
    refine ⟨by simp [loadTenants, if_neg hr], by simp [loadTenants, if_neg hr], ?_⟩
    intro hall
    have hnone : tenants.find? (fun t => t.id == u.tenantId) = none := by
      rw [List.find?_eq_none]
      intro t ht
      simpa using hall t ht
    simp [loadTenants, if_neg hr, hnone]
  · intro h
    have hr : u.role = UserRole.super_admin := (canSwitchTenants_iff u.role).mp h
    refine ⟨by simp [loadTenants, if_pos hr], ?_, ?_, ?_, ?_⟩
    · intro sid t hs hf
      subst hs
      simp [loadTenants, if_pos hr, hf]
    · intro sid hs hf
      subst hs
      simp [loadTenants, if_pos hr, hf]
    · intro hs
      subst hs
      simp [loadTenants, if_pos hr]
    · intro he
      subst he
      cases stored with
      | none => simp [loadTenants, if_pos hr]
      | some sid => simp [loadTenants, if_pos hr]
  · intro t ht
    rw [key, ht]
  · intro hn
    rw [key, hn]

/-- Witness for C4: the org_admin of tenant-1 resolves acme with an empty
availableTenants, and a super_admin with persisted id tenant-2 resolves
techstart from the full catalog. -/
theorem loadTenants_spec_witness :
    (loadTenants mockUser2 mockTenants none).1.availableTenants = [] ∧
    (loadTenants mockUser2 mockTenants none).1.currentTenant = some acmeTenant ∧
    (loadTenants mockUser1 mockTenants (some "tenant-2")).1.currentTenant
      = some techstartTenant ∧
    (loadTenants mockUser1 mockTenants (some "tenant-2")).2 = some "tenant-2" := by
  have hA := (loadTenants_spec mockUser2 mockTenants none).1 (by decide)
  have hB := ((loadTenants_spec mockUser1 mockTenants (some "tenant-2")).2.1
      (by decide)).2.1 "tenant-2" techstartTenant rfl (by decide)
  have hC := (loadTenants_spec mockUser1 mockTenants (some "tenant-2")).2.2.1
      techstartTenant hB
  refine ⟨hA.1, ?_, hB, ?_⟩
  · rw [hA.2.1]; decide
  · rw [hC]; rfl

/-- C10: authApi.login returns a User for every input, so the sign-in failure
path is unreachable: a super_admin request always resolves to the single fixed
super_admin mock user whatever the tenantId, a non-matching request fabricates
an active user with the requested role and tenantId, and a matching request
returns the stored mock user. -/
theorem authApiLogin_total_spec (role : UserRole) (tenantId : String)
    (nowMs : Nat) (nowIso : String) :
    (role = UserRole.super_admin →
      authApiLogin role tenantId nowMs nowIso = mockUser1)
    ∧ (role ≠ UserRole.super_admin →
        mockUsers.find? (fun u => u.role == role && u.tenantId == tenantId) = none →
        authApiLogin role tenantId nowMs nowIso
          = fabricatedUser role tenantId nowMs nowIso)
    ∧ (∀ u, role ≠ UserRole.super_admin →
        mockUsers.find? (fun x => x.role == role && x.tenantId == tenantId) = some u →
        authApiLogin role tenantId nowMs nowIso = u) := by
  refine ⟨?_, ?_, ?_⟩
  · intro h
    subst h
    rfl
  · intro hne hnone
    simp [authApiLogin, if_neg hne, hnone]
  · intro u hne hsome
    simp [authApiLogin, if_neg hne, hsome]

/-- Witness for C10: super_admin login with an arbitrary tenant id yields the
fixed mock super admin, and an org_admin login against an unknown tenant
fabricates a user. -/
theorem authApiLogin_total_spec_witness :
    authApiLogin UserRole.super_admin "tenant-9" 0 "2025-01-01T00:00:00Z" = mockUser1
    ∧ authApiLogin UserRole.org_admin "tenant-x" 42 "2025-01-01T00:00:00Z"
      = fabricatedUser UserRole.org_admin "tenant-x" 42 "2025-01-01T00:00:00Z" := by
  constructor
  · exact (authApiLogin_total_spec UserRole.super_admin "tenant-9" 0
      "2025-01-01T00:00:00Z").1 rfl
  · exact (authApiLogin_total_spec UserRole.org_admin "tenant-x" 42
      "2025-01-01T00:00:00Z").2.1 (by decide) (by decide)

/-- C2: on every coherent snapshot (isAuthenticated mirrors the presence of a
user, which every AuthContext state satisfies), ProtectedRoute decides exactly
as the spec-worded guard: AWAIT while loading, redirect to sign-in when
anonymous, deny when requiredRoles excludes the role, deny when the route is
not accessible for the role, otherwise allow; being a pure function of the
snapshot, the decision depends on nothing else. -/
theorem protectedRoute_spec (authLoading tenantLoading isAuthenticated : Bool)
    (user : Option User) (requiredRoles : Option (List UserRole)) (pathname : String)
    (h : isAuthenticated = user.isSome) :
    protectedRoute authLoading tenantLoading isAuthenticated user requiredRoles pathname
      = guardSpec authLoading tenantLoading user requiredRoles pathname := by
  subst h
  cases user with
  | none =>
    cases authLoading <;> cases tenantLoading <;> rfl
  | some u =>
    cases authLoading with
    | true => cases tenantLoading <;> rfl
    | false =>
      cases tenantLoading with
      | true => rfl
      | false =>
        cases requiredRoles with
        | none =>
          cases hca : canAccessRoute u.role pathname <;>
            simp [protectedRoute, guardSpec, hca]
        | some rs =>
          cases hcr : rs.contains u.role <;>
            cases hca : canAccessRoute u.role pathname <;>
            simp [protectedRoute, guardSpec, hcr, hca]

/-- Witness for C2 at a concrete snapshot: an org_admin hitting a route that
requires super_admin, where both the guard and the spec answer unauthorized. -/
theorem protectedRoute_spec_witness :
    protectedRoute false false true (some mockUser2)
        (some [UserRole.super_admin]) "/dashboard/users"
      = guardSpec false false (some mockUser2)
        (some [UserRole.super_admin]) "/dashboard/users"
    ∧ guardSpec false false (some mockUser2)
        (some [UserRole.super_admin]) "/dashboard/users"
      = GuardDecision.unauthorized :=
  ⟨protectedRoute_spec false false true (some mockUser2)
      (some [UserRole.super_admin]) "/dashboard/users" rfl,
   by decide⟩

end TenantView


